import Mathlib

/-!
Verification of the FootyIQ quiz/league client (src/unnamed/part_000 and
src/Web/FootyIQApp.jsx) against its natural-language specification.

The quiz session engine, score reconciler and league operations are shallowly
embedded below.  Presentation-only data (question display text, avatar URLs,
timestamps, theme colours) is omitted; all state transitions mirror the
source handlers line by line.  JS numbers holding counters and scores are
modelled as `Nat` (the program only ever adds non-negative quantities to
them); the random values produced by `Math.random()` are passed in as
explicit oracle arguments.
-/

namespace FootyIQ

/-- One entry of `QUIZ_DATA.questions` in src/unnamed/part_000: `id`,
`options` and `correct`.  The `text` field is display-only and omitted. -/
structure Question where
  id : Nat
  options : List String
  correct : String
deriving DecidableEq, Repr

/-- The quiz definition consumed by the session engine (`QUIZ_DATA` shape):
`id`, `timeLimitSeconds`, `pointsPerQuestion` and the ordered question list.
`totalQuestions`, `totalPoints`, `name` and `expiresAt` are display/expiry
concerns not used by the session logic modelled here (the code uses the
actual array length, see the comment at part_000 line 295). -/
structure QuizDefinition where
  id : String
  timeLimitSeconds : Nat
  pointsPerQuestion : Nat
  questions : List Question
deriving DecidableEq, Repr

/-- A recorded answer: the value stored in `quizState.questionStatus[qId]`
by `handleAnswer` (part_000 lines 273-280).  `status` is the literal string
`"correct"` or `"incorrect"` exactly as in the source. -/
structure AnswerRecord where
  status : String
  selected : String
  correctAnswer : String
deriving DecidableEq, Repr

/-- The in-memory session state created by `startQuiz` (part_000 lines
228-233).  `questionStatus` is the JS object mapping question id to its
`AnswerRecord`; JS objects preserve insertion order and `handleAnswer` only
ever adds a fresh key, so it is modelled as an insertion-ordered association
list. -/
structure QuizState where
  currentQuestionIndex : Nat
  correctAnswers : Nat
  answeredCount : Nat
  questionStatus : List (Nat × AnswerRecord)
deriving DecidableEq, Repr

/-- The immutable result snapshot built by `calculateResults` (part_000
lines 251-263).  The source formats `accuracyRate` with `toFixed(1)`; here
it is kept as the exact rational value of `(correctAnswers / totalAnswered)
* 100` (0 when nothing was answered), since no claim depends on the decimal
formatting. -/
structure QuizResult where
  totalAnswered : Nat
  correctAnswers : Nat
  pointsEarned : Nat
  accuracyRate : ℚ
deriving DecidableEq, Repr

/-- The durable user profile document at
`artifacts/(appId)/users/(userId)/gameData/profile`, restricted to the fields
the score reconciler reads and writes: `score`, `leagueScore`, `globalRank`.
The source has no `completedQuizIds` (or `quizzes_completed`) field written
anywhere, which is material to claim C1. -/
structure UserProfile where
  score : Nat
  leagueScore : Nat
  globalRank : String
deriving DecidableEq, Repr

/-- The App component state driving one quiz attempt, combining the React
state cells `isQuizActive`, `timeRemaining`, `quizState`, `quizResult` with
the durable profile document.  `lastFinishTimedOut` is a ghost field
recording the `timedOut` argument of the most recent `endQuiz` call (the
source receives this argument but drops it when building the result, so the
ghost is the only way to state which finish mode occurred).  `quizState` is
`null` in JS only before the very first `startQuiz`; every state considered
below is reachable from a `startQuiz`, so it is kept total. -/
structure AppState where
  isQuizActive : Bool
  timeRemaining : Nat
  quizState : QuizState
  quizResult : Option QuizResult
  lastFinishTimedOut : Option Bool
  profile : Option UserProfile
deriving DecidableEq, Repr

/-- The simulated quiz data constant `QUIZ_DATA` of src/unnamed/part_000
(lines 19-34): four questions, 90 second limit, 10 points per question. -/
def QUIZ_DATA : QuizDefinition :=
  { id := "quiz-20251008"
    timeLimitSeconds := 90
    pointsPerQuestion := 10
    questions :=
      [ { id := 1
          options := ["Lionel Messi", "Cristiano Ronaldo", "Michel Platini", "Johan Cruyff"]
          correct := "Lionel Messi" },
        { id := 2
          options := ["Brazil", "Argentina", "Germany", "Spain"]
          correct := "Germany" },
        { id := 3
          options := ["FC Barcelona", "AC Milan", "Real Madrid", "Bayern Munich"]
          correct := "Real Madrid" },
        { id := 4
          options := ["Alan Shearer", "Wayne Rooney", "Thierry Henry", "Sergio Agüero"]
          correct := "Alan Shearer" } ] }

/-- Key lookup in the `questionStatus` association list, modelling the JS
property access `quizState.questionStatus[qId]` (absent key = `none`). -/
def lookupQ (qid : Nat) : List (Nat × AnswerRecord) → Option AnswerRecord
  | [] => none
  | e :: rest => if e.1 = qid then some e.2 else lookupQ qid rest

/-- The fresh session state set by `startQuiz` (part_000 lines 228-233). -/
def initQuizState : QuizState :=
  { currentQuestionIndex := 0
    correctAnswers := 0
    answeredCount := 0
    questionStatus := [] }

/-- The initial profile written on first observation of a missing profile
document (part_000 line 180), restricted to the modelled fields. -/
def initProfile : UserProfile :=
  { score := 0, leagueScore := 0, globalRank := "#N/A" }

/-- An app state before any quiz was started, with the freshly initialized
profile; used as a concrete starting point for witnesses. -/
def initState : AppState :=
  { isQuizActive := false
    timeRemaining := 0
    quizState := initQuizState
    quizResult := none
    lastFinishTimedOut := none
    profile := some initProfile }

/-- `startQuiz` (part_000 lines 223-234): activates the quiz, clears the
previous result, resets the timer to the quiz time limit and installs a
fresh `quizState`.  The ghost `lastFinishTimedOut` is reset with the
result. -/
def startQuizApp (qd : QuizDefinition) (s : AppState) : AppState :=
  { s with
    isQuizActive := true
    quizResult := none
    timeRemaining := qd.timeLimitSeconds
    quizState := initQuizState
    lastFinishTimedOut := none }

/-- `calculateResults` (part_000 lines 251-263): reads the counters of the
final session state and derives the result.  `pointsEarned` is
`correctAnswers * QUIZ_DATA.pointsPerQuestion` in the source; the quiz
definition is passed explicitly here instead of read from the module-level
constant. -/
def calculateResults (state : QuizState) (pointsPerQuestion : Nat) : QuizResult :=
  { totalAnswered := state.answeredCount
    correctAnswers := state.correctAnswers
    pointsEarned := state.correctAnswers * pointsPerQuestion
    accuracyRate :=
      if state.answeredCount > 0 then
        mkRat (state.correctAnswers * 100) state.answeredCount
      else 0 }

/-- The body of the `runTransaction` callback in `updateUserScore`
(part_000 lines 308-315): read the profile document (missing document or
missing `score` field counts as score 0), add the points, and write
`score`, `leagueScore` and `globalRank` with merge semantics.  Note there is
no completed-quiz check of any kind in the source transaction. -/
def updateUserScore (profile : Option UserProfile) (points : Nat) : UserProfile :=
  let currentScore := match profile with
    | some p => p.score
    | none => 0
  { score := currentScore + points
    leagueScore := currentScore + points
    globalRank := "#calculating" }

/-- `endQuiz` (part_000 lines 236-249) as invoked through a render closure
whose `quizState` constant is `captured`: deactivates the quiz, computes the
final results from the *captured* session state, stores them, and saves the
earned points through `updateUserScore` (the source guards the save behind
`db && userId`; the authenticated case is modelled).  The state setters and
the Firestore transaction act on the current state, but `calculateResults`
reads the closure's `quizState` — this matters because both deferred finish
paths of the source hold stale closures (see `advanceQuestionStale` and
`tickStale`).  The `timedOut` argument is recorded in the ghost field; the
source passes it to `calculateResults`, whose parameter list ignores it. -/
def endQuizOn (qd : QuizDefinition) (s : AppState) (captured : QuizState)
    (timedOut : Bool) : AppState :=
  { s with
    isQuizActive := false
    quizResult := some (calculateResults captured qd.pointsPerQuestion)
    lastFinishTimedOut := some timedOut
    profile :=
      some (updateUserScore s.profile
        (calculateResults captured qd.pointsPerQuestion).pointsEarned) }

/-- `endQuiz` invoked through a fresh closure, i.e. with the captured
`quizState` equal to the current one.  This is the finish routine's own
behaviour; the deferred callers below differ only in which snapshot their
closure holds. -/
def endQuiz (qd : QuizDefinition) (s : AppState) (timedOut : Bool) : AppState :=
  endQuizOn qd s s.quizState timedOut

/-- `handleAnswer` (part_000 lines 265-301), the synchronous part: no-op if
the current question is out of range (the JS would throw before mutating
anything) or already has an entry in `questionStatus`; otherwise evaluate
`selectedOption === currentQ.correct`, record the entry and bump the
counters.  The deferred index advance scheduled via `setTimeout` is
modelled separately as `advanceQuestion`. -/
def handleAnswer (qd : QuizDefinition) (st : QuizState) (selectedOption : String) : QuizState :=
  match qd.questions[st.currentQuestionIndex]? with
  | none => st
  | some currentQ =>
    match lookupQ currentQ.id st.questionStatus with
    | some _ => st
    | none =>
      { st with
        correctAnswers :=
          if selectedOption = currentQ.correct then st.correctAnswers + 1
          else st.correctAnswers
        answeredCount := st.answeredCount + 1
        questionStatus := st.questionStatus ++
          [(currentQ.id,
            { status :=
                if selectedOption = currentQ.correct then "correct" else "incorrect"
              selected := selectedOption
              correctAnswer := currentQ.correct })] }

/-- `handleAnswer` lifted to the app state (it only touches `quizState`). -/
def handleAnswerApp (qd : QuizDefinition) (s : AppState) (selectedOption : String) : AppState :=
  { s with quizState := handleAnswer qd s.quizState selectedOption }

/-- The `setTimeout` callback scheduled by `handleAnswer` (part_000 lines
293-300): advance to the next question, or end the quiz (with
`timedOut = false` by the default argument) after the last one.  This
simplified form finishes with a fresh closure (current state); in the
program the callback belongs to the click render and therefore holds the
*pre-answer* `quizState` — the faithful form, used for claim C6, is
`advanceQuestionStale`.  The two coincide on which branch is taken up to
the captured index, and `endQuizOn` never modifies `quizState`, so the
session-state invariant of claim C7 is insensitive to the difference. -/
def advanceQuestion (qd : QuizDefinition) (s : AppState) : AppState :=
  if s.quizState.currentQuestionIndex + 1 < qd.questions.length then
    { s with
      quizState :=
        { s.quizState with
          currentQuestionIndex := s.quizState.currentQuestionIndex + 1 } }
  else
    endQuiz qd s false

/-- The `setTimeout` callback as the program actually runs it: `nextIndex`
is computed from the click render's captured (pre-answer) `quizState`, the
advance is a functional update of the current state, and the finish goes
through the click render's `endQuiz` closure, which also holds the captured
pre-answer `quizState`. -/
def advanceQuestionStale (qd : QuizDefinition) (s : AppState)
    (captured : QuizState) : AppState :=
  if captured.currentQuestionIndex + 1 < qd.questions.length then
    { s with
      quizState :=
        { s.quizState with
          currentQuestionIndex := captured.currentQuestionIndex + 1 } }
  else
    endQuizOn qd s captured false

/-- One firing of the quiz timer interval (part_000 lines 204-219): only
runs while the quiz is active; when the remaining time is about to reach 0
it ends the quiz with `timedOut = true`, otherwise it decrements.  This
simplified form finishes with a fresh closure; in the program the interval
callback is installed by an effect with dependency list `[isQuizActive]`,
so it permanently holds the `endQuiz` closure of the render right after
`startQuiz`, whose `quizState` is the freshly initialized one — the
faithful form, used for claim C6, is `tickStale`.  On a session that
receives no answers (claim C5) the two coincide, because the start-time
snapshot `initQuizState` is the current session state throughout; and the
session-state invariant of claim C7 is insensitive to the difference since
`endQuizOn` never modifies `quizState`. -/
def tick (qd : QuizDefinition) (s : AppState) : AppState :=
  if s.isQuizActive then
    if s.timeRemaining ≤ 1 then
      endQuiz qd { s with timeRemaining := 0 } true
    else
      { s with timeRemaining := s.timeRemaining - 1 }
  else s

/-- One firing of the quiz timer interval as the program actually runs it:
the countdown acts on the current state, but the finish goes through the
interval's `endQuiz` closure over `captured`, the `quizState` of the render
in which the `[isQuizActive]` effect last ran (the start-time state). -/
def tickStale (qd : QuizDefinition) (s : AppState) (captured : QuizState) : AppState :=
  if s.isQuizActive then
    if s.timeRemaining ≤ 1 then
      endQuizOn qd { s with timeRemaining := 0 } captured true
    else
      { s with timeRemaining := s.timeRemaining - 1 }
  else s

/-- `n` successive firings of the stale-closure timer. -/
def ticksStale (qd : QuizDefinition) (captured : QuizState) : Nat → AppState → AppState
  | 0, s => s
  | n + 1, s => tickStale qd (ticksStale qd captured n s) captured

/-- `n` successive timer firings. -/
def ticks (qd : QuizDefinition) : Nat → AppState → AppState
  | 0, s => s
  | n + 1, s => tick qd (ticks qd n s)

/-- Number of recorded answers whose selected option equals the recorded
correct option of their question: the aggregate that `correctAnswers`
is claimed to track. -/
def countCorrectSel (qs : List (Nat × AnswerRecord)) : Nat :=
  (qs.filter fun e => decide (e.2.selected = e.2.correctAnswer)).length

/-- Session states reachable from a `startQuiz` (from an arbitrary prior
app state) by any interleaving of answer submissions, deferred advances and
timer ticks. -/
inductive Reachable (qd : QuizDefinition) : AppState → Prop where
  | start (s0 : AppState) : Reachable qd (startQuizApp qd s0)
  | answer {s : AppState} (h : Reachable qd s) (opt : String) :
      Reachable qd (handleAnswerApp qd s opt)
  | advance {s : AppState} (h : Reachable qd s) : Reachable qd (advanceQuestion qd s)
  | clockTick {s : AppState} (h : Reachable qd s) : Reachable qd (tick qd s)

/-- The concrete state after starting `QUIZ_DATA` from `initState` and
answering the first question correctly. -/
def answeredOnceState : AppState :=
  handleAnswerApp QUIZ_DATA (startQuizApp QUIZ_DATA initState) "Lionel Messi"

/-- One user answer as the program actually sequences it: the click runs
`handleAnswer` on the current state, then the deferred callback runs with
the pre-answer `quizState` of that click render captured in its closure. -/
def answerThenAdvance (qd : QuizDefinition) (s : AppState) (opt : String) : AppState :=
  advanceQuestionStale qd (handleAnswerApp qd s opt) s.quizState

/-- The program's state after starting `QUIZ_DATA` and answering all four
questions correctly, each answer followed by its deferred callback.  The
last callback takes the finish branch and computes the result from the
pre-answer snapshot holding only three answers. -/
def fullRunState : AppState :=
  answerThenAdvance QUIZ_DATA
    (answerThenAdvance QUIZ_DATA
      (answerThenAdvance QUIZ_DATA
        (answerThenAdvance QUIZ_DATA (startQuizApp QUIZ_DATA initState) "Lionel Messi")
        "Germany")
      "Real Madrid")
    "Alan Shearer"

/-- The program's state after starting `QUIZ_DATA`, answering the first
question correctly, and then letting all 90 timer firings elapse: the
interval's closure computes the result from the start-time snapshot
`initQuizState`. -/
def staleTimeoutState : AppState :=
  ticksStale QUIZ_DATA initQuizState QUIZ_DATA.timeLimitSeconds answeredOnceState

/-- A league document as written by `handleCreateLeague` in
src/unnamed/part_000 (lines 339-350), restricted to the non-timestamp
fields (`createdAt`, `startDate` and the display-only `ownerName` are
omitted).  `code` is `null` for public leagues. -/
structure League where
  name : String
  description : String
  isPrivate : Bool
  ownerId : String
  members : Nat
  points : Nat
  code : Option String
deriving DecidableEq, Repr

/-- `handleCreateLeague` (part_000 lines 326-362): builds the league
document and inserts it into the `leagues` collection with `addDoc`, which
unconditionally appends a fresh document.  The 6-character code produced by
`Math.random().toString(36).substring(2, 8).toUpperCase()` is supplied by
the caller as the oracle argument `generatedCode`; it is used only when
`isPrivate` holds.  The source performs no lookup of existing codes, no
retry and no failure path other than a rejected write. -/
def handleCreateLeague (leagues : List League) (userId nm ds : String)
    (isPrivate : Bool) (generatedCode : String) : List League :=
  leagues ++
    [{ name := nm
       description := ds
       isPrivate := isPrivate
       ownerId := userId
       members := 1
       points := 0
       code := if isPrivate then some generatedCode else none }]

/-- A league document in the shape used by src/Web/FootyIQApp.jsx
(`handleModalSubmit`, lines 437-446): this variant stores `memberCount`.
Timestamps are omitted as above. -/
structure LeagueDoc where
  name : String
  description : String
  isPrivate : Bool
  code : Option String
  ownerId : String
  memberCount : Nat
deriving DecidableEq, Repr

/-- A document of the per-user `myLeagues` subcollection written by the
join transaction (FootyIQApp.jsx line 490): the membership record for
`(userId, leagueId)`, with the user's league score snapshot. -/
structure MyLeagueEntry where
  leagueId : String
  isOwner : Bool
  score : Nat
deriving DecidableEq, Repr

/-- The shared remote store as seen by the league operations of
FootyIQApp.jsx: the public `leagues` collection (document id to data) and
the membership documents, keyed by `(userId, leagueId)` from their path
`users/(userId)/gameData/myLeagues/(leagueId)`. -/
structure Store where
  leagues : List (String × LeagueDoc)
  myLeagues : List ((String × String) × MyLeagueEntry)
deriving DecidableEq, Repr

/-- Lookup of a league document by document id. -/
def lookupLeague (ls : List (String × LeagueDoc)) (docId : String) : Option LeagueDoc :=
  match ls with
  | [] => none
  | e :: rest => if e.1 = docId then some e.2 else lookupLeague rest docId

/-- Lookup of a membership document by its `(userId, leagueId)` key. -/
def lookupMyLeague (ms : List ((String × String) × MyLeagueEntry))
    (k : String × String) : Option MyLeagueEntry :=
  match ms with
  | [] => none
  | e :: rest => if e.1 = k then some e.2 else lookupMyLeague rest k

/-- Firestore `set` on a membership document: overwrite the document at the
key if it exists, otherwise create it. -/
def setMyLeague (ms : List ((String × String) × MyLeagueEntry))
    (k : String × String) (v : MyLeagueEntry) : List ((String × String) × MyLeagueEntry) :=
  match ms with
  | [] => [(k, v)]
  | e :: rest => if e.1 = k then (k, v) :: rest else e :: setMyLeague rest k v

/-- The `runTransaction` callback of the join branch of `handleModalSubmit`
(FootyIQApp.jsx lines 481-491).  The source comments that the full
transactional logic is skipped and only performs the mock update: a single
`transaction.set` of the user's membership document with `isOwner = false`
and the user's current `leagueScore`.  The league document, in particular
its `memberCount`, is not touched (only the local display list shows
`memberCount + 1`). -/
def joinLeagueTransaction (st : Store) (userId leagueId : String)
    (userLeagueScore : Nat) : Store :=
  { st with
    myLeagues := setMyLeague st.myLeagues (userId, leagueId)
      { leagueId := leagueId, isOwner := false, score := userLeagueScore } }

/-- A concrete store holding one private league with one member, used as the
failing input for claim C9. -/
def joinStore : Store :=
  { leagues :=
      [("L1",
        { name := "Weekend Warriors"
          description := "A casual league for weekend quizzers."
          isPrivate := true
          code := some "AB12CD"
          ownerId := "owner1"
          memberCount := 1 })]
    myLeagues := [] }

/-- The league document produced by a first `handleCreateLeague` call with
owner `"user1"` and generated code `"AB12CD"`; concrete input for claim
C8. -/
def alphaLeague : League :=
  { name := "Alpha League"
    description := "first"
    isPrivate := true
    ownerId := "user1"
    members := 1
    points := 0
    code := some "AB12CD" }

/-! ## Helper lemmas -/

/-- Absence of a key in the association list is absence from its key list. -/
theorem lookupQ_none_iff {qid : Nat} :
    ∀ {qs : List (Nat × AnswerRecord)}, lookupQ qid qs = none ↔ qid ∉ qs.map Prod.fst := by
  intro qs
  induction qs with
  | nil => simp [lookupQ]
  | cons e rest ih =>
    simp only [lookupQ, List.map_cons, List.mem_cons, not_or]
    by_cases he : e.1 = qid
    · simp [he]
    · have hne : ¬ qid = e.1 := fun hh => he hh.symm
      simp [he, hne, ih]

/-- Looking past a block that does not contain the key. -/
theorem lookupQ_append_of_none {qid : Nat} {qs : List (Nat × AnswerRecord)}
    (h : lookupQ qid qs = none) (rs : List (Nat × AnswerRecord)) :
    lookupQ qid (qs ++ rs) = lookupQ qid rs := by
  induction qs with
  | nil => simp
  | cons e rest ih =>
    by_cases he : e.1 = qid
    · simp [lookupQ, he] at h
    · simp only [lookupQ, he, if_false, List.cons_append] at h ⊢
      simp [lookupQ, he, ih h]

/-- A freshly appended entry is found by lookup when its key was absent. -/
theorem lookupQ_append_self {qid : Nat} {qs : List (Nat × AnswerRecord)}
    (h : lookupQ qid qs = none) (v : AnswerRecord) :
    lookupQ qid (qs ++ [(qid, v)]) = some v := by
  rw [lookupQ_append_of_none h]
  simp [lookupQ]

/-- `handleAnswer` does nothing when the current index is out of range. -/
theorem handleAnswer_none {qd : QuizDefinition} {st : QuizState}
    (h : qd.questions[st.currentQuestionIndex]? = none) (opt : String) :
    handleAnswer qd st opt = st := by
  unfold handleAnswer
  rw [h]

/-- `handleAnswer` does nothing when the current question already has a
recorded answer. -/
theorem handleAnswer_answered {qd : QuizDefinition} {st : QuizState} {q : Question}
    {r : AnswerRecord} (h : qd.questions[st.currentQuestionIndex]? = some q)
    (h2 : lookupQ q.id st.questionStatus = some r) (opt : String) :
    handleAnswer qd st opt = st := by
  unfold handleAnswer
  rw [h]
  simp [h2]

/-- The recording branch of `handleAnswer`, spelled out. -/
theorem handleAnswer_record {qd : QuizDefinition} {st : QuizState} {q : Question}
    (h : qd.questions[st.currentQuestionIndex]? = some q)
    (h2 : lookupQ q.id st.questionStatus = none) (opt : String) :
    handleAnswer qd st opt =
      { st with
        correctAnswers :=
          if opt = q.correct then st.correctAnswers + 1 else st.correctAnswers
        answeredCount := st.answeredCount + 1
        questionStatus := st.questionStatus ++
          [(q.id,
            { status := if opt = q.correct then "correct" else "incorrect"
              selected := opt
              correctAnswer := q.correct })] } := by
  unfold handleAnswer
  rw [h]
  simp [h2]

/-- Appending one record changes `countCorrectSel` by 1 exactly when the
appended record selected its correct option. -/
theorem countCorrectSel_append (qs : List (Nat × AnswerRecord)) (e : Nat × AnswerRecord) :
    countCorrectSel (qs ++ [e]) =
      countCorrectSel qs + (if e.2.selected = e.2.correctAnswer then 1 else 0) := by
  by_cases hc : e.2.selected = e.2.correctAnswer <;>
    simp [countCorrectSel, List.filter_append, hc]

/-- An index lookup that succeeds yields a member of the list. -/
theorem mem_of_index {α : Type} :
    ∀ (l : List α) (i : Nat) (a : α), l[i]? = some a → a ∈ l
  | [], i, a, h => by simp at h
  | b :: t, 0, a, h => by
    simp at h
    simp [h]
  | b :: t, i + 1, a, h => by
    simp only [List.getElem?_cons_succ] at h
    exact List.mem_cons_of_mem b (mem_of_index t i a h)

/-- A duplicate-free list contained in another list is not longer than it. -/
theorem keys_length_le {keys ids : List Nat} (hnd : keys.Nodup)
    (hsub : ∀ a ∈ keys, a ∈ ids) : keys.length ≤ ids.length := by
  classical
  calc keys.length = keys.toFinset.card := (List.toFinset_card_of_nodup hnd).symm
    _ ≤ ids.toFinset.card := by
        apply Finset.card_le_card
        intro a ha
        rw [List.mem_toFinset] at ha ⊢
        exact hsub a ha
    _ ≤ ids.length := ids.toFinset_card_le

/-- The session-counter invariant: in every reachable state the counters
are the aggregates over `questionStatus`, the recorded keys are distinct,
and every recorded key is the id of some quiz question. -/
theorem reachable_inv {qd : QuizDefinition} {s : AppState} (h : Reachable qd s) :
    s.quizState.correctAnswers = countCorrectSel s.quizState.questionStatus ∧
    s.quizState.answeredCount = s.quizState.questionStatus.length ∧
    (s.quizState.questionStatus.map Prod.fst).Nodup ∧
    ∀ qid ∈ s.quizState.questionStatus.map Prod.fst,
      qid ∈ qd.questions.map Question.id := by
  induction h with
  | start s0 =>
    refine ⟨rfl, rfl, ?_, ?_⟩
    · simp [startQuizApp, initQuizState]
    · simp [startQuizApp, initQuizState]
  | answer h opt ih =>
    obtain ⟨ih1, ih2, ih3, ih4⟩ := ih
    rename_i s
    have hqs : (handleAnswerApp qd s opt).quizState = handleAnswer qd s.quizState opt := rfl
    rw [hqs]
    cases hq : qd.questions[s.quizState.currentQuestionIndex]? with
    | none => rw [handleAnswer_none hq]; exact ⟨ih1, ih2, ih3, ih4⟩
    | some q =>
      cases hl : lookupQ q.id s.quizState.questionStatus with
      | some r => rw [handleAnswer_answered hq hl]; exact ⟨ih1, ih2, ih3, ih4⟩
      | none =>
        rw [handleAnswer_record hq hl]
        have hnot : q.id ∉ s.quizState.questionStatus.map Prod.fst :=
          lookupQ_none_iff.mp hl
        refine ⟨?_, ?_, ?_, ?_⟩
        · by_cases hc : opt = q.correct <;>
            simp [countCorrectSel_append, hc, ih1]
        · simp [ih2]
        · simp [List.nodup_append, ih3, hnot]
        · intro qid hmem
          simp only [List.map_append, List.map_cons, List.map_nil,
            List.mem_append, List.mem_singleton] at hmem
          rcases hmem with hmem | hmem
          · exact ih4 qid hmem
          · subst hmem
            exact List.mem_map_of_mem Question.id
              (mem_of_index qd.questions s.quizState.currentQuestionIndex q hq)
  | advance h ih =>
    rename_i s
    unfold advanceQuestion
    by_cases hlt : s.quizState.currentQuestionIndex + 1 < qd.questions.length <;>
      simpa [hlt, endQuiz] using ih
  | clockTick h ih =>
    rename_i s
    unfold tick
    by_cases ha : s.isQuizActive = true
    · by_cases hr : s.timeRemaining ≤ 1 <;> simpa [ha, hr, endQuiz] using ih
    · simpa [ha] using ih

/-- While fewer than `timeLimitSeconds` ticks have fired, the started
session is untouched except for the countdown. -/
theorem ticks_active (qd : QuizDefinition) (s0 : AppState) :
    ∀ k, k < qd.timeLimitSeconds →
      ticks qd k (startQuizApp qd s0) =
        { startQuizApp qd s0 with timeRemaining := qd.timeLimitSeconds - k } := by
  intro k
  induction k with
  | zero =>
    intro _
    simp [ticks, startQuizApp]
  | succ k ih =>
    intro hk
    have hk0 : k < qd.timeLimitSeconds := by omega
    have h2 : ¬ qd.timeLimitSeconds - k ≤ 1 := by omega
    have h3 : qd.timeLimitSeconds - k - 1 = qd.timeLimitSeconds - (k + 1) := by omega
    simp only [ticks]
    rw [ih hk0]
    simp [tick, startQuizApp, h2, h3]

/-- The `timeLimitSeconds`-th tick of an input-free session ends the quiz
with `timedOut = true`. -/
theorem ticks_timeout (qd : QuizDefinition) (s0 : AppState)
    (hT : 0 < qd.timeLimitSeconds) :
    ticks qd qd.timeLimitSeconds (startQuizApp qd s0) =
      endQuiz qd { startQuizApp qd s0 with timeRemaining := 0 } true := by
  have hsucc : qd.timeLimitSeconds = (qd.timeLimitSeconds - 1) + 1 := by omega
  have h1 : qd.timeLimitSeconds - (qd.timeLimitSeconds - 1) = 1 := by omega
  conv_lhs => rw [hsucc]
  simp only [ticks]
  rw [ticks_active qd s0 (qd.timeLimitSeconds - 1) (by omega), h1]
  simp [tick, startQuizApp]

/-! ## Claim C1 -/

/-- Claim C1 (counterexample): the claim states that invoking the
score-update transaction twice for the same `(user, quiz)` with point total
10 increases the durable score by exactly 10 once, the second invocation
observing `AlreadyCompleted`.  On the code this is false: `updateUserScore`
contains no completed-quiz check of any kind (no `completedQuizIds` field
exists), so starting from the freshly initialized profile with score 0 the
second invocation adds the points again and the final score is 20, not
10. -/
theorem c1_counterexample :
    (updateUserScore
      (some (updateUserScore
        (some { score := 0, leagueScore := 0, globalRank := "#N/A" }) 10)) 10).score ≠ 10 := by
  decide

/-- Claim C1 (amended): each invocation of the `updateUserScore`
transaction unconditionally adds the point total to the durable score, so
two invocations for the same `(user, quiz, p)` increase the score by `p`
twice (`2p` in total); there is no check of the quiz id against any
completed-quiz set inside the transaction and no `AlreadyCompleted`
outcome. -/
theorem c1_amended_double_add (prof : UserProfile) (p1 p2 : Nat) :
    (updateUserScore (some prof) p1).score = prof.score + p1 ∧
    (updateUserScore (some (updateUserScore (some prof) p1)) p2).score =
      prof.score + p1 + p2 := by
  exact ⟨rfl, rfl⟩

/-! ## Claim C2 -/

/-- Claim C2: while a session is active on an unanswered in-range question,
`handleAnswer` records the answer with status `"correct"` exactly when the
selected option equals the current question's correct option, storing the
selected option verbatim; and the evaluation is deterministic: any run from
the same session state with the same selected option produces the same
updated state. -/
theorem c2_answer_evaluation (qd : QuizDefinition) (st : QuizState) (opt : String)
    (currentQ : Question)
    (hq : qd.questions[st.currentQuestionIndex]? = some currentQ)
    (hna : lookupQ currentQ.id st.questionStatus = none) :
    (∃ entry, lookupQ currentQ.id (handleAnswer qd st opt).questionStatus = some entry ∧
      entry.selected = opt ∧
      (entry.status = "correct" ↔ opt = currentQ.correct)) ∧
    ∀ st2 opt2, st2 = st → opt2 = opt →
      handleAnswer qd st2 opt2 = handleAnswer qd st opt := by
  constructor
  · rw [handleAnswer_record hq hna]
    refine ⟨{ status := if opt = currentQ.correct then "correct" else "incorrect"
              selected := opt
              correctAnswer := currentQ.correct }, ?_, rfl, ?_⟩
    · simpa using lookupQ_append_self hna _
    · by_cases hc : opt = currentQ.correct <;> simp [hc]
  · intro st2 opt2 h1 h2
    rw [h1, h2]

/-- Claim C2 witness: the theorem applied to `QUIZ_DATA`, the fresh session
state and the option string of the first question's correct answer. -/
theorem c2_answer_evaluation_witness :
    (QUIZ_DATA.questions[initQuizState.currentQuestionIndex]? = some
      { id := 1
        options := ["Lionel Messi", "Cristiano Ronaldo", "Michel Platini", "Johan Cruyff"]
        correct := "Lionel Messi" }) ∧
    (lookupQ 1 initQuizState.questionStatus = none) ∧
    ((∃ entry,
        lookupQ 1 (handleAnswer QUIZ_DATA initQuizState "Lionel Messi").questionStatus =
          some entry ∧
        entry.selected = "Lionel Messi" ∧
        (entry.status = "correct" ↔ ("Lionel Messi" : String) = "Lionel Messi")) ∧
      ∀ st2 opt2, st2 = initQuizState → opt2 = "Lionel Messi" →
        handleAnswer QUIZ_DATA st2 opt2 =
          handleAnswer QUIZ_DATA initQuizState "Lionel Messi") :=
  ⟨by decide, by decide,
    c2_answer_evaluation QUIZ_DATA initQuizState "Lionel Messi"
      { id := 1
        options := ["Lionel Messi", "Cristiano Ronaldo", "Michel Platini", "Johan Cruyff"]
        correct := "Lionel Messi" }
      (by decide) (by decide)⟩

/-! ## Claim C3 -/

/-- Claim C3: re-submission is a no-op.  After one `handleAnswer` call the
current question carries a record in `questionStatus`, so a second call for
that question, with any option (equal or different), returns the state of
the first call unchanged: same answered map, same `correctAnswers`, same
`answeredCount`, same `currentQuestionIndex`.  The statement covers every
session state, including those where the first call itself was a no-op. -/
theorem c3_resubmission_noop (qd : QuizDefinition) (st : QuizState) (o1 o2 : String) :
    handleAnswer qd (handleAnswer qd st o1) o2 = handleAnswer qd st o1 := by
  cases hq : qd.questions[st.currentQuestionIndex]? with
  | none =>
    rw [handleAnswer_none hq, handleAnswer_none hq]
  | some q =>
    cases hl : lookupQ q.id st.questionStatus with
    | some r =>
      rw [handleAnswer_answered hq hl, handleAnswer_answered hq hl]
    | none =>
      rw [handleAnswer_record hq hl]
      exact handleAnswer_answered (by simpa using hq)
        (by simpa using lookupQ_append_self hl _) o2

/-! ## Claim C4 -/

/-- Claim C4 (counterexample): the claim states that a second call to the
finish routine on an already finished session is a no-op.  On the code this
is false: `endQuiz` has no guard on the phase, and it saves the earned
points again.  Concretely, after answering the first `QUIZ_DATA` question
correctly and finishing (profile score 10), a second `endQuiz` produces a
different state (profile score 20). -/
theorem c4_counterexample :
    endQuiz QUIZ_DATA (endQuiz QUIZ_DATA answeredOnceState false) false ≠
      endQuiz QUIZ_DATA answeredOnceState false := by
  decide

/-- Claim C4 (amended): a second `endQuiz` call on an already finished
session leaves the session state, the stored `QuizResult` and the inactive
flag unchanged (the result is recomputed from the untouched counters), but
it does trigger a second durable score update: the profile score ends up at
the pre-finish score plus `pointsEarned` twice. -/
theorem c4_amended_second_finish (qd : QuizDefinition) (s : AppState) (t1 t2 : Bool) :
    (endQuiz qd (endQuiz qd s t1) t2).quizState = (endQuiz qd s t1).quizState ∧
    (endQuiz qd (endQuiz qd s t1) t2).quizResult = (endQuiz qd s t1).quizResult ∧
    (endQuiz qd (endQuiz qd s t1) t2).isQuizActive = (endQuiz qd s t1).isQuizActive ∧
    ∃ r, (endQuiz qd s t1).quizResult = some r ∧
      Option.getD (Option.map UserProfile.score (endQuiz qd (endQuiz qd s t1) t2).profile) 0 =
        Option.getD (Option.map UserProfile.score s.profile) 0 +
          r.pointsEarned + r.pointsEarned := by
  refine ⟨rfl, rfl, rfl,
    ⟨calculateResults s.quizState qd.pointsPerQuestion, rfl, ?_⟩⟩
  cases hp : s.profile with
  | none => simp [endQuiz, endQuizOn, updateUserScore, hp]
  | some u => simp [endQuiz, endQuizOn, updateUserScore, hp]

/-! ## Claim C10 -/

/-- Claim C10: every successful score save at quiz finish overwrites the
profile's `leagueScore` with the newly computed total `score` (it mirrors
`score` rather than being an independent per-league contribution) and
resets `globalRank` to the placeholder string. -/
theorem c10_league_score_mirror (qd : QuizDefinition) (s : AppState) (t : Bool) :
    ∃ prof, (endQuiz qd s t).profile = some prof ∧
      prof.leagueScore = prof.score ∧
      prof.globalRank = "#calculating" ∧
      prof.score = Option.getD (Option.map UserProfile.score s.profile) 0 +
        (calculateResults s.quizState qd.pointsPerQuestion).pointsEarned := by
  refine ⟨updateUserScore s.profile
    (calculateResults s.quizState qd.pointsPerQuestion).pointsEarned, rfl, rfl, rfl, ?_⟩
  cases hp : s.profile with
  | none => simp [updateUserScore, hp]
  | some u => simp [updateUserScore, hp]

/-! ## Claim C5 -/

/-- Claim C5: a session over a quiz with `timeLimitSeconds = T > 0` that is
started and then receives no answer submissions is still active (and has no
result) after every `k < T` ticks, and after exactly `T` ticks it is
finished with `timedOut = true` and a `QuizResult` with `answeredCount = 0`
and `pointsEarned = 0`. -/
theorem c5_timeout_after_T_ticks (qd : QuizDefinition) (s0 : AppState)
    (hT : 0 < qd.timeLimitSeconds) :
    (∀ k, k < qd.timeLimitSeconds →
      (ticks qd k (startQuizApp qd s0)).isQuizActive = true ∧
      (ticks qd k (startQuizApp qd s0)).quizResult = none) ∧
    (ticks qd qd.timeLimitSeconds (startQuizApp qd s0)).isQuizActive = false ∧
    (ticks qd qd.timeLimitSeconds (startQuizApp qd s0)).lastFinishTimedOut = some true ∧
    (ticks qd qd.timeLimitSeconds (startQuizApp qd s0)).quizResult =
      some { totalAnswered := 0, correctAnswers := 0, pointsEarned := 0, accuracyRate := 0 } := by
  refine ⟨?_, ?_, ?_, ?_⟩
  · intro k hk
    rw [ticks_active qd s0 k hk]
    exact ⟨rfl, rfl⟩
  · rw [ticks_timeout qd s0 hT]
    rfl
  · rw [ticks_timeout qd s0 hT]
    rfl
  · rw [ticks_timeout qd s0 hT]
    simp [endQuiz, endQuizOn, calculateResults, startQuizApp, initQuizState]

/-- Claim C5 witness: the theorem applied to `QUIZ_DATA` (time limit 90)
and the initial app state. -/
theorem c5_timeout_witness :
    0 < QUIZ_DATA.timeLimitSeconds ∧
    ((∀ k, k < QUIZ_DATA.timeLimitSeconds →
      (ticks QUIZ_DATA k (startQuizApp QUIZ_DATA initState)).isQuizActive = true ∧
      (ticks QUIZ_DATA k (startQuizApp QUIZ_DATA initState)).quizResult = none) ∧
    (ticks QUIZ_DATA QUIZ_DATA.timeLimitSeconds
      (startQuizApp QUIZ_DATA initState)).isQuizActive = false ∧
    (ticks QUIZ_DATA QUIZ_DATA.timeLimitSeconds
      (startQuizApp QUIZ_DATA initState)).lastFinishTimedOut = some true ∧
    (ticks QUIZ_DATA QUIZ_DATA.timeLimitSeconds
      (startQuizApp QUIZ_DATA initState)).quizResult =
      some { totalAnswered := 0, correctAnswers := 0, pointsEarned := 0, accuracyRate := 0 }) :=
  ⟨by decide, c5_timeout_after_T_ticks QUIZ_DATA initState (by decide)⟩

/-! ## Claim C6 -/

set_option maxRecDepth 8192 in
/-- Claim C6 (code behaviour at the failing inputs): the claim states that
every finished session's `QuizResult` satisfies `pointsEarned = correctCount
* pointsPerQuestion` over the session's recorded answers, which is the
spec's clear intent (`calculateResults` itself multiplies the counters it
is given).  The program violates it because both deferred finish paths
invoke stale `endQuiz` closures.  Evaluating the faithful stale-closure
model: answering all four `QUIZ_DATA` questions correctly finishes through
the last click render's closure over the pre-answer snapshot, producing a
result with `pointsEarned = 30` although the session recorded 4 correct
answers (the claim demands 40); and timing out after one correct answer
finishes through the interval's closure over the start-time snapshot,
producing `pointsEarned = 0` although 1 correct answer was recorded (the
claim demands 10). -/
theorem c6_stale_finish_divergence :
    fullRunState.quizResult =
      some { totalAnswered := 3, correctAnswers := 3, pointsEarned := 30, accuracyRate := 100 } ∧
    countCorrectSel fullRunState.quizState.questionStatus = 4 ∧
    (30 : Nat) ≠ countCorrectSel fullRunState.quizState.questionStatus * QUIZ_DATA.pointsPerQuestion ∧
    staleTimeoutState.quizResult =
      some { totalAnswered := 0, correctAnswers := 0, pointsEarned := 0, accuracyRate := 0 } ∧
    staleTimeoutState.lastFinishTimedOut = some true ∧
    countCorrectSel staleTimeoutState.quizState.questionStatus = 1 ∧
    (0 : Nat) ≠ countCorrectSel staleTimeoutState.quizState.questionStatus * QUIZ_DATA.pointsPerQuestion := by
  decide

/-! ## Claim C7 -/

/-- Claim C7: in every session state reachable from `startQuiz` by any
interleaving of ticks, answer submissions and the deferred advances they
schedule, `correctCount`, `answeredCount` and the answered map satisfy:
both counters equal the corresponding aggregates over the answered map
(number of entries whose selected option equals the recorded correct
option, and number of entries), and
`correctCount ≤ answeredCount ≤ len(questions)`. -/
theorem c7_counters_invariant (qd : QuizDefinition) (s : AppState)
    (h : Reachable qd s) :
    s.quizState.correctAnswers = countCorrectSel s.quizState.questionStatus ∧
    s.quizState.answeredCount = s.quizState.questionStatus.length ∧
    s.quizState.correctAnswers ≤ s.quizState.answeredCount ∧
    s.quizState.answeredCount ≤ qd.questions.length := by
  obtain ⟨ih1, ih2, ih3, ih4⟩ := reachable_inv h
  refine ⟨ih1, ih2, ?_, ?_⟩
  · rw [ih1, ih2]
    exact List.length_filter_le _ _
  · rw [ih2]
    have hkey := keys_length_le ih3 ih4
    simpa using hkey

/-- Claim C7 witness: the theorem applied to the reachable state in which
the first `QUIZ_DATA` question was answered correctly and one tick fired. -/
theorem c7_counters_invariant_witness :
    Reachable QUIZ_DATA (tick QUIZ_DATA answeredOnceState) ∧
    ((tick QUIZ_DATA answeredOnceState).quizState.correctAnswers =
      countCorrectSel (tick QUIZ_DATA answeredOnceState).quizState.questionStatus ∧
    (tick QUIZ_DATA answeredOnceState).quizState.answeredCount =
      (tick QUIZ_DATA answeredOnceState).quizState.questionStatus.length ∧
    (tick QUIZ_DATA answeredOnceState).quizState.correctAnswers ≤
      (tick QUIZ_DATA answeredOnceState).quizState.answeredCount ∧
    (tick QUIZ_DATA answeredOnceState).quizState.answeredCount ≤
      QUIZ_DATA.questions.length) :=
  ⟨Reachable.clockTick (Reachable.answer (Reachable.start initState) "Lionel Messi"),
    c7_counters_invariant QUIZ_DATA (tick QUIZ_DATA answeredOnceState)
      (Reachable.clockTick (Reachable.answer (Reachable.start initState) "Lionel Messi"))⟩

/-! ## Claim C8 -/

/-- Claim C8 (counterexample): the claim states that league creation never
produces two simultaneously-existing private leagues sharing a `joinCode`
(a colliding generated code is regenerated before insert).  On the code
this is false: `handleCreateLeague` inserts unconditionally, so two
creations whose random oracle yields the same code `"AB12CD"` leave two
private leagues with that code in the collection. -/
theorem c8_counterexample :
    ((handleCreateLeague
        (handleCreateLeague [] "user1" "Alpha League" "first" true "AB12CD")
        "user2" "Beta League" "second" true "AB12CD").filter
      fun l => l.isPrivate && decide (l.code = some "AB12CD")).length = 2 := by
  decide

/-- Claim C8 (amended): `handleCreateLeague` with `isPrivate = true` uses
the single generated code and appends the new league unconditionally — even
when that code already belongs to an existing private league — with no
existence check, no regeneration or retry, and no `CodeExhausted` outcome;
hence duplicate join codes among private leagues can coexist. -/
theorem c8_amended_unconditional_insert (leagues : List League) (l0 : League)
    (userId nm ds gen : String) (hmem : l0 ∈ leagues)
    (hcode : l0.code = some gen) (hpriv : l0.isPrivate = true) :
    (handleCreateLeague leagues userId nm ds true gen).length = leagues.length + 1 ∧
    l0 ∈ handleCreateLeague leagues userId nm ds true gen ∧
    ∃ lnew, handleCreateLeague leagues userId nm ds true gen = leagues ++ [lnew] ∧
      lnew.isPrivate = l0.isPrivate ∧ lnew.code = some gen ∧ lnew.code = l0.code := by
  refine ⟨by simp [handleCreateLeague], ?_, ?_⟩
  · simp [handleCreateLeague, hmem]
  · refine ⟨{ name := nm, description := ds, isPrivate := true, ownerId := userId,
              members := 1, points := 0, code := some gen }, ?_, ?_, rfl, ?_⟩
    · simp [handleCreateLeague]
    · rw [hpriv]
    · rw [hcode]

/-- Claim C8 amended witness: the amended theorem applied to a collection
already holding one private league with code `"AB12CD"` and a second
creation drawing the same code. -/
theorem c8_amended_witness :
    alphaLeague ∈
      handleCreateLeague [] "user1" "Alpha League" "first" true "AB12CD" ∧
    alphaLeague.code = some "AB12CD" ∧
    alphaLeague.isPrivate = true ∧
    ((handleCreateLeague
        (handleCreateLeague [] "user1" "Alpha League" "first" true "AB12CD")
        "user2" "Beta League" "second" true "AB12CD").length =
      (handleCreateLeague [] "user1" "Alpha League" "first" true "AB12CD").length + 1 ∧
    alphaLeague ∈
      handleCreateLeague
        (handleCreateLeague [] "user1" "Alpha League" "first" true "AB12CD")
        "user2" "Beta League" "second" true "AB12CD" ∧
    ∃ lnew, handleCreateLeague
        (handleCreateLeague [] "user1" "Alpha League" "first" true "AB12CD")
        "user2" "Beta League" "second" true "AB12CD" =
        handleCreateLeague [] "user1" "Alpha League" "first" true "AB12CD" ++ [lnew] ∧
      lnew.isPrivate = alphaLeague.isPrivate ∧ lnew.code = some "AB12CD" ∧
      lnew.code = alphaLeague.code) :=
  ⟨by decide, by decide, by decide,
    c8_amended_unconditional_insert
      (handleCreateLeague [] "user1" "Alpha League" "first" true "AB12CD")
      alphaLeague
      "user2" "Beta League" "second" "AB12CD"
      (by decide) (by decide) (by decide)⟩

/-! ## Claim C9 -/

/-- Claim C9 (code behaviour at the failing input): the claim states that
`joinLeague` fails with `AlreadyMember` on an existing membership and
otherwise atomically increments the league's `memberCount`, two distinct
users leaving it incremented by exactly 2.  Evaluating the join transaction
of the source on a store holding league `L1` with `memberCount = 1`: after
users `userA` and `userB` both join, the league documents are completely
unchanged (`memberCount` is still 1, not 3), although two distinct
membership documents with `isOwner = false` were written; and a repeated
join by the same user is a plain overwrite of the same membership document
rather than an `AlreadyMember` failure. -/
theorem c9_join_behavior :
    (joinLeagueTransaction (joinLeagueTransaction joinStore "userA" "L1" 0)
        "userB" "L1" 0).leagues = joinStore.leagues ∧
    Option.map LeagueDoc.memberCount
      (lookupLeague (joinLeagueTransaction (joinLeagueTransaction joinStore "userA" "L1" 0)
        "userB" "L1" 0).leagues "L1") = some 1 ∧
    lookupMyLeague (joinLeagueTransaction (joinLeagueTransaction joinStore "userA" "L1" 0)
        "userB" "L1" 0).myLeagues ("userA", "L1") =
      some { leagueId := "L1", isOwner := false, score := 0 } ∧
    lookupMyLeague (joinLeagueTransaction (joinLeagueTransaction joinStore "userA" "L1" 0)
        "userB" "L1" 0).myLeagues ("userB", "L1") =
      some { leagueId := "L1", isOwner := false, score := 0 } ∧
    joinLeagueTransaction (joinLeagueTransaction joinStore "userA" "L1" 0) "userA" "L1" 0 =
      joinLeagueTransaction joinStore "userA" "L1" 0 := by
  decide

end FootyIQ
